import Mathlib

/-!
Shallow embedding of the scroller-brawler combat, leveling and spawning
logic, translated from the TypeScript sources (`Player`, `Enemy`,
`EnemySpawner`, `RangedEnemy`, `GameConstants`).

Conventions used throughout:
* health values and damage amounts are integers (`Int`), matching the
  integer health model of the game; `Math.max`/`Math.min` become
  `max`/`min` on `Int`;
* `Math.floor(d * 0.1)` and `Math.floor(d * 0.3)` on integer damage are
  embedded as exact floors `Int.fdiv d 10` and `Int.fdiv (d * 3) 10`;
* `Math.floor(100 * Math.pow(1.5, k))` is embedded exactly as
  `(100 * 3 ^ k) / 2 ^ k` in `Nat` (the multiplier 1.5 is the rational
  3/2, and `Nat` division is the floor);
* `Math.random()` becomes an explicit rational parameter `rand` with the
  successful-roll test `rand < 7/10` taken verbatim from the source;
* event emissions (`emit('damage')`, `emit('death')`, ...) become an
  explicit list of `ActorEvent` values returned next to the new state;
* `scene.time.delayedCall` bodies become separate callback functions on
  the actor state; purely visual effects (tweens, tints, health bars)
  are dropped.
-/

/-- `GAME_CONFIG.LEVELING.BASE_EXPERIENCE_TO_LEVEL` (XP needed for level 2). -/
def BASE_EXPERIENCE_TO_LEVEL : Nat := 100

/-- `GAME_CONFIG.LEVELING.BONUSES_PER_LEVEL.HEALTH`. -/
def LEVEL_HEALTH_BONUS : Int := 10

/-- `GAME_CONFIG.LEVELING.BONUSES_PER_LEVEL.DAMAGE`. -/
def LEVEL_DAMAGE_BONUS : Int := 2

/-- `GAME_CONFIG.LEVELING.BONUSES_PER_LEVEL.SPEED`. -/
def LEVEL_SPEED_BONUS : Int := 5

/-- `GAME_CONFIG.LEVELING.SPEED_CAP`. -/
def SPEED_CAP : Int := 300

/-- `Math.floor(BASE_EXPERIENCE_TO_LEVEL * Math.pow(1.5, level - 1))`:
the experience threshold stored by `Player.levelUp` for a given level,
with the multiplier 1.5 written as the exact rational 3/2. -/
def expToNext (level : Nat) : Nat :=
  BASE_EXPERIENCE_TO_LEVEL * 3 ^ (level - 1) / 2 ^ (level - 1)

/-- The `PlayerState` enum from `Player.ts`. -/
inductive PlayerState
  | IDLE
  | WALKING
  | ATTACKING
  | HURT
  | STUNNED
  | BLOCKING
  | DEAD
deriving DecidableEq, Repr

/-- Events emitted by actors (`emit('damage')`, `emit('death')`,
`emit('heal')`), with the health arguments of the damage/heal events. -/
inductive ActorEvent
  | damageEvent (cur maxHealth : Int)
  | deathEvent
  | healEvent (cur maxHealth : Int)
deriving DecidableEq, Repr

/-- The observable fields of the `Player` class that the combat and
leveling methods read and write. -/
structure Player where
  maxHealth : Int
  currentHealth : Int
  attackDamage : Int
  speed : Int
  level : Nat
  experience : Nat
  experienceToNextLevel : Nat
  totalExperience : Nat
  currentState : PlayerState
  isInvulnerable : Bool
  isBlocking : Bool
  isAttacking : Bool
deriving DecidableEq, Repr

/-- The `Player` field initializers: 100 health, 20 attack damage,
200 speed, level 1 with 0 XP and `BASE_EXPERIENCE_TO_LEVEL` to the next
level, state IDLE. -/
def initialPlayer : Player :=
  { maxHealth := 100
    currentHealth := 100
    attackDamage := 20
    speed := 200
    level := 1
    experience := 0
    experienceToNextLevel := BASE_EXPERIENCE_TO_LEVEL
    totalExperience := 0
    currentState := PlayerState.IDLE
    isInvulnerable := false
    isBlocking := false
    isAttacking := false }

/-- `Player.onStateChange`: the synchronous field updates performed on a
state switch.  Note that `setPlayerState` assigns `currentState` before
calling `onStateChange`, so the blocking-cleanup branch compares the new
state with itself, exactly as in the source. -/
def Player.onStateChange (p : Player) (state : PlayerState) : Player :=
  let p1 := if p.currentState = PlayerState.BLOCKING ∧ state ≠ PlayerState.BLOCKING then
      { p with isBlocking := false } else p
  match state with
  | PlayerState.ATTACKING => { p1 with isAttacking := true }
  | PlayerState.HURT => { p1 with isInvulnerable := true }
  | PlayerState.BLOCKING => { p1 with isBlocking := true }
  | _ => p1

/-- `Player.setPlayerState`: assign the new state and run
`onStateChange` when it differs from the current one. -/
def Player.setPlayerState (p : Player) (state : PlayerState) : Player :=
  if p.currentState = state then p
  else Player.onStateChange { p with currentState := state } state

/-- `Player.die`: enter DEAD and reset the combat flags; the death event
is emitted (after the fade-out tween in the source). -/
def Player.die (p : Player) : Player × List ActorEvent :=
  let p1 := Player.setPlayerState p PlayerState.DEAD
  ({ p1 with isBlocking := false, isAttacking := false }, [ActorEvent.deathEvent])

/-- `Player.takeDamage`: early return when invulnerable or DEAD;
damage cut to `Math.floor(damage * 0.1)` while blocking; health floored
at 0; death, stun+invulnerability, or blocking feedback; a damage event
on every non-ignored hit. -/
def Player.takeDamage (p : Player) (damage : Int) : Player × List ActorEvent :=
  if p.isInvulnerable = true ∨ p.currentState = PlayerState.DEAD then (p, [])
  else
    let dmg := if p.isBlocking = true ∧ p.currentState = PlayerState.BLOCKING then
        Int.fdiv damage 10 else damage
    let cur1 := max 0 (p.currentHealth - dmg)
    let p1 := { p with currentHealth := cur1 }
    if cur1 ≤ 0 then
      let r := Player.die p1
      (r.1, ActorEvent.damageEvent r.1.currentHealth r.1.maxHealth :: r.2)
    else if p1.currentState ≠ PlayerState.BLOCKING then
      let p2 := { Player.setPlayerState p1 PlayerState.STUNNED with isInvulnerable := true }
      (p2, [ActorEvent.damageEvent p2.currentHealth p2.maxHealth])
    else
      (p1, [ActorEvent.damageEvent p1.currentHealth p1.maxHealth])

/-- `Player.heal`: clamp `currentHealth` to `maxHealth` and emit a heal
event; there is no dead-check in the source. -/
def Player.heal (p : Player) (amount : Int) : Player × List ActorEvent :=
  let p1 := { p with currentHealth := min p.maxHealth (p.currentHealth + amount) }
  (p1, [ActorEvent.healEvent p1.currentHealth p1.maxHealth])

/-- `Player.applyLevelUpBonuses`: raise max health (healing by the same
amount), raise attack damage, and raise speed unless the cap is reached. -/
def Player.applyLevelUpBonuses (p : Player) : Player :=
  let p1 := { p with maxHealth := p.maxHealth + LEVEL_HEALTH_BONUS,
                     currentHealth := p.currentHealth + LEVEL_HEALTH_BONUS }
  let p2 := { p1 with attackDamage := p1.attackDamage + LEVEL_DAMAGE_BONUS }
  if p2.speed < SPEED_CAP then { p2 with speed := p2.speed + LEVEL_SPEED_BONUS } else p2

/-- `Player.levelUp`: subtract the stored threshold, increment the
level, recompute the threshold from the new level, apply bonuses. -/
def Player.levelUp (p : Player) : Player :=
  Player.applyLevelUpBonuses
    { p with experience := p.experience - p.experienceToNextLevel,
             level := p.level + 1,
             experienceToNextLevel := expToNext (p.level + 1) }

/-- The reachable-state invariant of the leveling fields: the stored
threshold is the one recomputed from the current level.  It holds for
`initialPlayer` and is preserved by `levelUp`. -/
def Player.LevelInv (p : Player) : Prop :=
  p.experienceToNextLevel = expToNext p.level

/-- The `while (this.experience >= this.experienceToNextLevel)` loop of
`Player.gainExperience`; the invariant argument supplies the lower bound
on the stored threshold that makes the loop terminate. -/
def Player.levelLoop (p : Player) (hinv : Player.LevelInv p) : Player :=
  if hc : p.experienceToNextLevel ≤ p.experience then
    Player.levelLoop (Player.levelUp p)
      (by
        simp only [Player.LevelInv, Player.levelUp, Player.applyLevelUpBonuses]
        split <;> rfl)
  else p
termination_by p.experience
decreasing_by
  have hE : (Player.levelUp p).experience = p.experience - p.experienceToNextLevel := by
    simp only [Player.levelUp, Player.applyLevelUpBonuses]
    split <;> rfl
  have hpos : 0 < p.experienceToNextLevel := by
    rw [hinv]
    unfold expToNext
    have h2 : 0 < 2 ^ (p.level - 1) := Nat.pos_pow_of_pos _ (by decide)
    have hle : BASE_EXPERIENCE_TO_LEVEL * 2 ^ (p.level - 1) ≤
        BASE_EXPERIENCE_TO_LEVEL * 3 ^ (p.level - 1) :=
      Nat.mul_le_mul_left _ (Nat.pow_le_pow_left (by decide) _)
    have hdiv := (Nat.le_div_iff_mul_le h2).mpr hle
    have hbase : 0 < BASE_EXPERIENCE_TO_LEVEL := by decide
    omega
  rw [hE]
  exact Nat.sub_lt (Nat.lt_of_lt_of_le hpos hc) hpos

/-- `Player.gainExperience`: accumulate `experience` and
`totalExperience`, then run the level-up loop. -/
def Player.gainExperience (p : Player) (amount : Nat) (hinv : Player.LevelInv p) : Player :=
  Player.levelLoop
    { p with experience := p.experience + amount,
             totalExperience := p.totalExperience + amount }
    hinv

/-- The `EnemyState` enum from `Enemy.ts`. -/
inductive EnemyState
  | IDLE
  | WALKING
  | ATTACKING
  | BLOCKING
  | HURT
  | DEAD
deriving DecidableEq, Repr

/-- The observable fields of the `Enemy` class that the combat methods
and the delayed-callback bodies read and write. -/
structure Enemy where
  maxHealth : Int
  currentHealth : Int
  currentState : EnemyState
  isInvulnerable : Bool
  isBlocking : Bool
  isAttacking : Bool
  isWindingUp : Bool
deriving DecidableEq, Repr

/-- The `Enemy` field initializers relevant here: 50 max health, state
IDLE, no flags set. -/
def initialEnemy : Enemy :=
  { maxHealth := 50
    currentHealth := 50
    currentState := EnemyState.IDLE
    isInvulnerable := false
    isBlocking := false
    isAttacking := false
    isWindingUp := false }

/-- `Enemy.onStateChange`: synchronous field updates on a state switch
(ATTACKING sets `isAttacking`, BLOCKING sets `isBlocking`, HURT calls
`makeInvulnerable`); the delayed callbacks each case schedules are the
separate functions below. -/
def Enemy.onStateChange (e : Enemy) (state : EnemyState) : Enemy :=
  match state with
  | EnemyState.ATTACKING => { e with isAttacking := true }
  | EnemyState.BLOCKING => { e with isBlocking := true }
  | EnemyState.HURT => { e with isInvulnerable := true }
  | _ => e

/-- `Enemy.setEnemyState`: assign the new state and run `onStateChange`
when it differs from the current one. -/
def Enemy.setEnemyState (e : Enemy) (state : EnemyState) : Enemy :=
  if e.currentState = state then e
  else Enemy.onStateChange { e with currentState := state } state

/-- `Enemy.die`: enter DEAD and emit the death event. -/
def Enemy.die (e : Enemy) : Enemy × List ActorEvent :=
  (Enemy.setEnemyState e EnemyState.DEAD, [ActorEvent.deathEvent])

/-- `Enemy.takeDamage`: early return when invulnerable or DEAD; when the
`isBlocking` flag is set, roll `Math.random() < 0.7` (the `rand`
parameter) and on success cut damage to `Math.floor(damage * 0.3)`;
floor health at 0; die or enter HURT; emit a damage event. -/
def Enemy.takeDamage (e : Enemy) (damage : Int) (rand : ℚ) : Enemy × List ActorEvent :=
  if e.isInvulnerable = true ∨ e.currentState = EnemyState.DEAD then (e, [])
  else
    let dmg := if e.isBlocking = true ∧ rand < 7/10 then Int.fdiv (damage * 3) 10 else damage
    let cur1 := max 0 (e.currentHealth - dmg)
    let e1 := { e with currentHealth := cur1 }
    if cur1 ≤ 0 then
      let r := Enemy.die e1
      (r.1, r.2 ++ [ActorEvent.damageEvent r.1.currentHealth r.1.maxHealth])
    else
      (Enemy.setEnemyState e1 EnemyState.HURT,
        [ActorEvent.damageEvent cur1 e1.maxHealth])

/-- `Enemy.startBlocking`: only from IDLE or WALKING. -/
def Enemy.startBlocking (e : Enemy) : Enemy :=
  if e.currentState = EnemyState.IDLE ∨ e.currentState = EnemyState.WALKING then
    Enemy.setEnemyState e EnemyState.BLOCKING
  else e

/-- The body of the `ATTACK_DURATION` delayed call scheduled when the
enemy enters ATTACKING: clear `isAttacking` and go to IDLE, with no
health or state guard. -/
def Enemy.attackDurationCallback (e : Enemy) : Enemy :=
  Enemy.setEnemyState { e with isAttacking := false } EnemyState.IDLE

/-- The body of the 800 ms delayed call scheduled when the enemy enters
BLOCKING: clear `isBlocking` and go to IDLE, with no health or state
guard. -/
def Enemy.blockEndCallback (e : Enemy) : Enemy :=
  Enemy.setEnemyState { e with isBlocking := false } EnemyState.IDLE

/-- The body of the 400 ms delayed call scheduled when the enemy enters
HURT: go to IDLE only if `currentHealth > 0`. -/
def Enemy.hurtEndCallback (e : Enemy) : Enemy :=
  if 0 < e.currentHealth then Enemy.setEnemyState e EnemyState.IDLE else e

/-- The `SpawnPoint` record of `EnemySpawner.ts`. -/
structure SpawnPoint where
  x : ℚ
  y : ℚ
  triggered : Bool
  triggerDistance : ℚ
deriving DecidableEq, Repr

/-- The observable fields of the `EnemySpawner` class: the live-enemy
list (each enemy represented by its spawn position), the spawn points
and the live cap. -/
structure EnemySpawner where
  enemies : List (ℚ × ℚ)
  spawnPoints : List SpawnPoint
  maxEnemies : Nat

/-- The `for (const spawnPoint of this.spawnPoints)` loop of
`EnemySpawner.checkSpawnTriggers`: points are processed in order; an
untriggered point within `triggerDistance` of the player spawns an
enemy (appended to the running list, so the cap check sees enemies
spawned earlier in the same pass) and is marked triggered. -/
def checkSpawnTriggersAux (playerX : ℚ) (maxE : Nat) :
    List SpawnPoint → List (ℚ × ℚ) → List SpawnPoint × List (ℚ × ℚ)
  | [], es => ([], es)
  | sp :: rest, es =>
    if sp.triggered = false ∧ es.length < maxE ∧ |playerX - sp.x| ≤ sp.triggerDistance then
      let r := checkSpawnTriggersAux playerX maxE rest (es ++ [(sp.x, sp.y)])
      ({ sp with triggered := true } :: r.1, r.2)
    else
      let r := checkSpawnTriggersAux playerX maxE rest es
      (sp :: r.1, r.2)

/-- `EnemySpawner.checkSpawnTriggers` for a given player x position. -/
def EnemySpawner.checkSpawnTriggers (sp : EnemySpawner) (playerX : ℚ) : EnemySpawner :=
  let r := checkSpawnTriggersAux playerX sp.maxEnemies sp.spawnPoints sp.enemies
  { sp with spawnPoints := r.1, enemies := r.2 }

/-- `EnemySpawner.cleanupDeadEnemies`: keep only the enemies the given
liveness predicate (Phaser's `active` flag) accepts. -/
def EnemySpawner.cleanupDeadEnemies (sp : EnemySpawner) (alive : ℚ × ℚ → Bool) : EnemySpawner :=
  { sp with enemies := sp.enemies.filter alive }

/-- `EnemySpawner.update`: check spawn triggers, then clean up dead
enemies. -/
def EnemySpawner.update (sp : EnemySpawner) (playerX : ℚ) (alive : ℚ × ℚ → Bool) :
    EnemySpawner :=
  (sp.checkSpawnTriggers playerX).cleanupDeadEnemies alive

/-- `EnemySpawner.reset`: clear every `triggered` flag and destroy all
live enemies. -/
def EnemySpawner.reset (sp : EnemySpawner) : EnemySpawner :=
  { sp with spawnPoints := sp.spawnPoints.map (fun q => { q with triggered := false }),
            enemies := [] }

/-- A sequence of `update` ticks, each with its own player position and
enemy-liveness predicate. -/
def runSpawner (sp : EnemySpawner) : List (ℚ × ((ℚ × ℚ) → Bool)) → EnemySpawner
  | [] => sp
  | (px, alive) :: rest => runSpawner (sp.update px alive) rest

/-- `RangedEnemy.fireProjectile` leading factor (`const prediction = 0.3`). -/
def PREDICTION_FACTOR : ℚ := 3/10

/-- `RangedEnemy.fireProjectile` self-collision offset (`const offsetDistance = 30`). -/
def PROJECTILE_OFFSET : ℚ := 30

/-- The predictive aim point of `RangedEnemy.fireProjectile`: the
target position plus the player velocity extrapolated over the
time-of-flight estimate `distToTarget / projectileSpeed`, scaled by the
leading factor.  `distToTarget` is the (square-root) distance from the
enemy to the target, passed here as an explicit value. -/
def predictAim (targetX targetY vx vy distToTarget projectileSpeed : ℚ) : ℚ × ℚ :=
  let timeToTarget := distToTarget / projectileSpeed
  (targetX + vx * timeToTarget * PREDICTION_FACTOR,
   targetY + vy * timeToTarget * PREDICTION_FACTOR)

/-- The data of a spawned projectile: its velocity vector and start
position. -/
structure ProjectileShot where
  velX : ℚ
  velY : ℚ
  startX : ℚ
  startY : ℚ
deriving DecidableEq, Repr

/-- The second half of `RangedEnemy.fireProjectile`: normalize the
direction from the enemy at `(ex, ey)` to the adjusted target
`(ax, ay)` (whose Euclidean norm is passed as `aimDist`), scale it by
the projectile speed, and offset the start position forward; no
projectile is created when the distance is zero. -/
def fireProjectile (ex ey ax ay aimDist projectileSpeed : ℚ) : Option ProjectileShot :=
  let dx := ax - ex
  let dy := ay - ey
  if 0 < aimDist then
    some { velX := dx / aimDist * projectileSpeed
           velY := dy / aimDist * projectileSpeed
           startX := ex + dx / aimDist * PROJECTILE_OFFSET
           startY := ey + dy / aimDist * PROJECTILE_OFFSET }
  else none

/-! ## Helper lemmas -/

theorem expToNext_ge_base (level : Nat) : BASE_EXPERIENCE_TO_LEVEL ≤ expToNext level := by
  have h2 : 0 < 2 ^ (level - 1) := Nat.pos_pow_of_pos _ (by decide)
  have hle : BASE_EXPERIENCE_TO_LEVEL * 2 ^ (level - 1) ≤
      BASE_EXPERIENCE_TO_LEVEL * 3 ^ (level - 1) :=
    Nat.mul_le_mul_left _ (Nat.pow_le_pow_left (by decide) _)
  exact (Nat.le_div_iff_mul_le h2).mpr hle

theorem expToNext_pos (level : Nat) : 0 < expToNext level :=
  Nat.lt_of_lt_of_le (by decide) (expToNext_ge_base level)

theorem applyLevelUpBonuses_experience (p : Player) :
    (Player.applyLevelUpBonuses p).experience = p.experience := by
  simp only [Player.applyLevelUpBonuses]
  split <;> rfl

theorem applyLevelUpBonuses_level (p : Player) :
    (Player.applyLevelUpBonuses p).level = p.level := by
  simp only [Player.applyLevelUpBonuses]
  split <;> rfl

theorem applyLevelUpBonuses_threshold (p : Player) :
    (Player.applyLevelUpBonuses p).experienceToNextLevel = p.experienceToNextLevel := by
  simp only [Player.applyLevelUpBonuses]
  split <;> rfl

theorem applyLevelUpBonuses_currentHealth (p : Player) :
    (Player.applyLevelUpBonuses p).currentHealth = p.currentHealth + LEVEL_HEALTH_BONUS := by
  simp only [Player.applyLevelUpBonuses]
  split <;> rfl

theorem applyLevelUpBonuses_maxHealth (p : Player) :
    (Player.applyLevelUpBonuses p).maxHealth = p.maxHealth + LEVEL_HEALTH_BONUS := by
  simp only [Player.applyLevelUpBonuses]
  split <;> rfl

theorem levelUp_experience (p : Player) :
    (Player.levelUp p).experience = p.experience - p.experienceToNextLevel := by
  unfold Player.levelUp
  rw [applyLevelUpBonuses_experience]

theorem levelUp_level (p : Player) : (Player.levelUp p).level = p.level + 1 := by
  unfold Player.levelUp
  rw [applyLevelUpBonuses_level]

theorem levelUp_threshold (p : Player) :
    (Player.levelUp p).experienceToNextLevel = expToNext (p.level + 1) := by
  unfold Player.levelUp
  rw [applyLevelUpBonuses_threshold]

theorem levelUp_currentHealth (p : Player) :
    (Player.levelUp p).currentHealth = p.currentHealth + LEVEL_HEALTH_BONUS := by
  unfold Player.levelUp
  rw [applyLevelUpBonuses_currentHealth]

theorem levelUp_maxHealth (p : Player) :
    (Player.levelUp p).maxHealth = p.maxHealth + LEVEL_HEALTH_BONUS := by
  unfold Player.levelUp
  rw [applyLevelUpBonuses_maxHealth]

theorem levelLoop_post (p : Player) (hinv : Player.LevelInv p) :
    (Player.levelLoop p hinv).experience < (Player.levelLoop p hinv).experienceToNextLevel := by
  induction p, hinv using Player.levelLoop.induct with
  | case1 p hinv hc ih =>
    rw [Player.levelLoop, dif_pos hc]
    exact ih
  | case2 p hinv hc =>
    rw [Player.levelLoop, dif_neg hc]
    omega

theorem levelLoop_level_mono (p : Player) (hinv : Player.LevelInv p) :
    p.level ≤ (Player.levelLoop p hinv).level := by
  induction p, hinv using Player.levelLoop.induct with
  | case1 p hinv hc ih =>
    rw [Player.levelLoop, dif_pos hc]
    calc p.level ≤ (Player.levelUp p).level := by rw [levelUp_level]; omega
      _ ≤ _ := ih
  | case2 p hinv hc =>
    rw [Player.levelLoop, dif_neg hc]

theorem levelLoop_health (p : Player) (hinv : Player.LevelInv p)
    (h0 : 0 ≤ p.currentHealth) (h1 : p.currentHealth ≤ p.maxHealth) :
    0 ≤ (Player.levelLoop p hinv).currentHealth ∧
      (Player.levelLoop p hinv).currentHealth ≤ (Player.levelLoop p hinv).maxHealth := by
  induction p, hinv using Player.levelLoop.induct with
  | case1 p hinv hc ih =>
    rw [Player.levelLoop, dif_pos hc]
    refine ih ?_ ?_
    · rw [levelUp_currentHealth]
      have hB : (0:Int) ≤ LEVEL_HEALTH_BONUS := by decide
      omega
    · rw [levelUp_currentHealth, levelUp_maxHealth]
      omega
  | case2 p hinv hc =>
    rw [Player.levelLoop, dif_neg hc]
    exact ⟨h0, h1⟩

theorem setPlayerState_currentHealth (p : Player) (s : PlayerState) :
    (Player.setPlayerState p s).currentHealth = p.currentHealth := by
  simp only [Player.setPlayerState, Player.onStateChange]
  split
  · rfl
  · cases s <;> (split <;> rfl)

theorem setPlayerState_maxHealth (p : Player) (s : PlayerState) :
    (Player.setPlayerState p s).maxHealth = p.maxHealth := by
  simp only [Player.setPlayerState, Player.onStateChange]
  split
  · rfl
  · cases s <;> (split <;> rfl)

theorem setPlayerState_currentState (p : Player) (s : PlayerState) :
    (Player.setPlayerState p s).currentState = s := by
  simp only [Player.setPlayerState, Player.onStateChange]
  split
  · rename_i h; exact h
  · cases s <;> (split <;> rfl)

theorem die_currentHealth (p : Player) :
    (Player.die p).1.currentHealth = p.currentHealth := by
  simp only [Player.die]
  exact setPlayerState_currentHealth p PlayerState.DEAD

theorem die_maxHealth (p : Player) :
    (Player.die p).1.maxHealth = p.maxHealth := by
  simp only [Player.die]
  exact setPlayerState_maxHealth p PlayerState.DEAD

theorem die_currentState (p : Player) :
    (Player.die p).1.currentState = PlayerState.DEAD := by
  simp only [Player.die]
  exact setPlayerState_currentState p PlayerState.DEAD

theorem setEnemyState_currentHealth (e : Enemy) (s : EnemyState) :
    (Enemy.setEnemyState e s).currentHealth = e.currentHealth := by
  simp only [Enemy.setEnemyState, Enemy.onStateChange]
  split
  · rfl
  · cases s <;> rfl

theorem setEnemyState_maxHealth (e : Enemy) (s : EnemyState) :
    (Enemy.setEnemyState e s).maxHealth = e.maxHealth := by
  simp only [Enemy.setEnemyState, Enemy.onStateChange]
  split
  · rfl
  · cases s <;> rfl

theorem setEnemyState_currentState (e : Enemy) (s : EnemyState) :
    (Enemy.setEnemyState e s).currentState = s := by
  simp only [Enemy.setEnemyState, Enemy.onStateChange]
  split
  · rename_i h; exact h
  · cases s <;> rfl

theorem takeDamage_guard (p : Player) (d : Int)
    (hg : p.isInvulnerable = true ∨ p.currentState = PlayerState.DEAD) :
    p.takeDamage d = (p, []) := by
  simp only [Player.takeDamage]
  rw [if_pos hg]

theorem takeDamage_currentHealth (p : Player) (d : Int)
    (hg : ¬(p.isInvulnerable = true ∨ p.currentState = PlayerState.DEAD)) :
    (p.takeDamage d).1.currentHealth
        = max 0 (p.currentHealth -
            (if p.isBlocking = true ∧ p.currentState = PlayerState.BLOCKING then
              Int.fdiv d 10 else d)) ∧
      (p.takeDamage d).1.maxHealth = p.maxHealth := by
  simp only [Player.takeDamage]
  rw [if_neg hg]
  split <;> split
  all_goals first
    | exact ⟨die_currentHealth _, die_maxHealth _⟩
    | (split
       · exact ⟨setPlayerState_currentHealth _ _, setPlayerState_maxHealth _ _⟩
       · exact ⟨rfl, rfl⟩)

theorem enemy_takeDamage_guard (e : Enemy) (d : Int) (rand : ℚ)
    (hg : e.isInvulnerable = true ∨ e.currentState = EnemyState.DEAD) :
    e.takeDamage d rand = (e, []) := by
  simp only [Enemy.takeDamage]
  rw [if_pos hg]

theorem enemy_takeDamage_currentHealth (e : Enemy) (d : Int) (rand : ℚ)
    (hg : ¬(e.isInvulnerable = true ∨ e.currentState = EnemyState.DEAD)) :
    (e.takeDamage d rand).1.currentHealth
        = max 0 (e.currentHealth -
            (if e.isBlocking = true ∧ rand < 7/10 then Int.fdiv (d * 3) 10 else d)) ∧
      (e.takeDamage d rand).1.maxHealth = e.maxHealth := by
  simp only [Enemy.takeDamage, Enemy.die]
  rw [if_neg hg]
  split <;> split <;>
    exact ⟨setEnemyState_currentHealth _ _, setEnemyState_maxHealth _ _⟩

theorem checkSpawnTriggersAux_length_le (playerX : ℚ) (maxE : Nat) :
    ∀ (pts : List SpawnPoint) (es : List (ℚ × ℚ)), es.length ≤ maxE →
      (checkSpawnTriggersAux playerX maxE pts es).2.length ≤ maxE := by
  intro pts
  induction pts with
  | nil => intro es h; simpa [checkSpawnTriggersAux] using h
  | cons sp rest ih =>
    intro es h
    rw [checkSpawnTriggersAux]
    split
    · rename_i hcond
      exact ih _ (by simp; omega)
    · exact ih _ h

theorem checkSpawnTriggersAux_get?_triggered (playerX : ℚ) (maxE : Nat) :
    ∀ (pts : List SpawnPoint) (es : List (ℚ × ℚ)) (i : Nat),
      (∀ q, pts.get? i = some q → q.triggered = true) →
      (checkSpawnTriggersAux playerX maxE pts es).1.get? i = pts.get? i := by
  intro pts
  induction pts with
  | nil => intro es i _; rw [checkSpawnTriggersAux]
  | cons sp rest ih =>
    intro es i h
    rw [checkSpawnTriggersAux]
    split
    · rename_i hcond
      cases i with
      | zero =>
        exact absurd (h sp rfl) (by simp [hcond.1])
      | succ j =>
        simpa using ih _ j (fun q hq => h q (by simpa using hq))
    · cases i with
      | zero => rfl
      | succ j =>
        simpa using ih _ j (fun q hq => h q (by simpa using hq))

theorem checkSpawnTriggersAux_spawn_provenance (playerX : ℚ) (maxE : Nat) :
    ∀ (pts : List SpawnPoint) (es : List (ℚ × ℚ)),
      ∃ ns, (checkSpawnTriggersAux playerX maxE pts es).2 = es ++ ns ∧
        ∀ q ∈ ns, ∃ p, p ∈ pts ∧ p.triggered = false ∧ q = (p.x, p.y) ∧
          |playerX - p.x| ≤ p.triggerDistance := by
  intro pts
  induction pts with
  | nil =>
    intro es
    exact ⟨[], by rw [checkSpawnTriggersAux]; simp⟩
  | cons sp rest ih =>
    intro es
    rw [checkSpawnTriggersAux]
    split
    · rename_i hcond
      obtain ⟨ns, hns, hmem⟩ := ih (es ++ [(sp.x, sp.y)])
      refine ⟨(sp.x, sp.y) :: ns, ?_, ?_⟩
      · simpa [List.append_assoc] using hns
      · intro q hq
        rcases List.mem_cons.mp hq with hq | hq
        · exact ⟨sp, List.mem_cons_self .., hcond.1, hq, hcond.2.2⟩
        · obtain ⟨p, hp, h1, h2, h3⟩ := hmem q hq
          exact ⟨p, List.mem_cons_of_mem _ hp, h1, h2, h3⟩
    · obtain ⟨ns, hns, hmem⟩ := ih es
      refine ⟨ns, hns, ?_⟩
      intro q hq
      obtain ⟨p, hp, h1, h2, h3⟩ := hmem q hq
      exact ⟨p, List.mem_cons_of_mem _ hp, h1, h2, h3⟩

theorem update_maxEnemies (sp : EnemySpawner) (px : ℚ) (alive : ℚ × ℚ → Bool) :
    (sp.update px alive).maxEnemies = sp.maxEnemies := rfl

theorem update_length_le (sp : EnemySpawner) (px : ℚ) (alive : ℚ × ℚ → Bool)
    (h : sp.enemies.length ≤ sp.maxEnemies) :
    (sp.update px alive).enemies.length ≤ sp.maxEnemies :=
  Nat.le_trans (List.length_filter_le _ _)
    (checkSpawnTriggersAux_length_le px sp.maxEnemies sp.spawnPoints sp.enemies h)

theorem update_get?_triggered (sp : EnemySpawner) (px : ℚ) (alive : ℚ × ℚ → Bool)
    (i : Nat) (h : ∀ q, sp.spawnPoints.get? i = some q → q.triggered = true) :
    (sp.update px alive).spawnPoints.get? i = sp.spawnPoints.get? i :=
  checkSpawnTriggersAux_get?_triggered px sp.maxEnemies sp.spawnPoints sp.enemies i h

theorem runSpawner_latch (steps : List (ℚ × ((ℚ × ℚ) → Bool))) :
    ∀ (sp : EnemySpawner) (i : Nat),
      sp.enemies.length ≤ sp.maxEnemies →
      (∀ q, sp.spawnPoints.get? i = some q → q.triggered = true) →
      (runSpawner sp steps).enemies.length ≤ sp.maxEnemies ∧
        (runSpawner sp steps).spawnPoints.get? i = sp.spawnPoints.get? i := by
  induction steps with
  | nil => intro sp i h1 h2; exact ⟨h1, rfl⟩
  | cons step rest ih =>
    intro sp i h1 h2
    obtain ⟨px, alive⟩ := step
    rw [runSpawner]
    have hg := update_get?_triggered sp px alive i h2
    have hrec := ih (sp.update px alive) i
      (by rw [update_maxEnemies]; exact update_length_le sp px alive h1)
      (by intro q hq; exact h2 q (hg ▸ hq))
    refine ⟨?_, ?_⟩
    · have hm := hrec.1
      rwa [update_maxEnemies] at hm
    · rw [hrec.2, hg]

/-! ## Claim theorems -/

/-- C1: for every non-negative XP amount, after `Player.gainExperience`
returns, `experience < experienceToNextLevel` holds and `level` is at
least its value before the call (the level-up loop repeatedly subtracts
the threshold, increments the level and recomputes
`experienceToNextLevel = floor(100 * 1.5 ^ (level - 1))` until the
postcondition holds). -/
theorem gainExperience_postcondition (p : Player) (amount : Nat)
    (hinv : Player.LevelInv p) :
    (p.gainExperience amount hinv).experience <
      (p.gainExperience amount hinv).experienceToNextLevel ∧
    p.level ≤ (p.gainExperience amount hinv).level := by
  constructor
  · exact levelLoop_post _ _
  · exact levelLoop_level_mono
      { p with experience := p.experience + amount,
               totalExperience := p.totalExperience + amount } hinv

/-- Witness for C1: the fresh level-1 player gaining 250 XP. -/
theorem gainExperience_postcondition_witness :
    Player.LevelInv initialPlayer ∧
    ((initialPlayer.gainExperience 250 rfl).experience <
        (initialPlayer.gainExperience 250 rfl).experienceToNextLevel ∧
      initialPlayer.level ≤ (initialPlayer.gainExperience 250 rfl).level) :=
  ⟨rfl, gainExperience_postcondition initialPlayer 250 rfl⟩

/-- C10: in every reachable leveling state the stored threshold is at
least `BASE_EXPERIENCE_TO_LEVEL = 100`, so each iteration of the
level-up loop strictly decreases `experience` by at least 100 and the
recomputed threshold is again at least 100; `experience` is the measure
under which `Player.levelLoop` is accepted as terminating. -/
theorem levelUp_loop_decrease (p : Player) (hinv : Player.LevelInv p)
    (hloop : p.experienceToNextLevel ≤ p.experience) :
    BASE_EXPERIENCE_TO_LEVEL ≤ p.experienceToNextLevel ∧
    (Player.levelUp p).experience + BASE_EXPERIENCE_TO_LEVEL ≤ p.experience ∧
    BASE_EXPERIENCE_TO_LEVEL ≤ (Player.levelUp p).experienceToNextLevel := by
  have h1 : BASE_EXPERIENCE_TO_LEVEL ≤ p.experienceToNextLevel := by
    rw [hinv]; exact expToNext_ge_base p.level
  refine ⟨h1, ?_, ?_⟩
  · rw [levelUp_experience]; omega
  · rw [levelUp_threshold]; exact expToNext_ge_base _

/-- Witness for C10: a level-1 player holding 150 XP. -/
theorem levelUp_loop_decrease_witness :
    Player.LevelInv { initialPlayer with experience := 150 } ∧
    ({ initialPlayer with experience := 150 } : Player).experienceToNextLevel ≤
      ({ initialPlayer with experience := 150 } : Player).experience ∧
    (BASE_EXPERIENCE_TO_LEVEL ≤
        ({ initialPlayer with experience := 150 } : Player).experienceToNextLevel ∧
      (Player.levelUp { initialPlayer with experience := 150 }).experience +
          BASE_EXPERIENCE_TO_LEVEL ≤
        ({ initialPlayer with experience := 150 } : Player).experience ∧
      BASE_EXPERIENCE_TO_LEVEL ≤
        (Player.levelUp { initialPlayer with experience := 150 }).experienceToNextLevel) :=
  ⟨rfl, by decide,
    levelUp_loop_decrease { initialPlayer with experience := 150 } rfl (by decide)⟩

/-- C8: every `Player` operation that touches health — `takeDamage`
with non-negative damage, `heal` with a non-negative amount, and the
per-level bonus application inside `gainExperience` — preserves
`0 ≤ currentHealth ≤ maxHealth`. -/
theorem player_health_invariant (p : Player) (d a : Int) (amount : Nat)
    (hinv : Player.LevelInv p) (hd : 0 ≤ d) (ha : 0 ≤ a)
    (h0 : 0 ≤ p.currentHealth) (h1 : p.currentHealth ≤ p.maxHealth) :
    (0 ≤ (p.takeDamage d).1.currentHealth ∧
      (p.takeDamage d).1.currentHealth ≤ (p.takeDamage d).1.maxHealth) ∧
    (0 ≤ (p.heal a).1.currentHealth ∧
      (p.heal a).1.currentHealth ≤ (p.heal a).1.maxHealth) ∧
    (0 ≤ (p.gainExperience amount hinv).currentHealth ∧
      (p.gainExperience amount hinv).currentHealth ≤
        (p.gainExperience amount hinv).maxHealth) := by
  refine ⟨?_, ?_, ?_⟩
  · by_cases hg : p.isInvulnerable = true ∨ p.currentState = PlayerState.DEAD
    · rw [takeDamage_guard p d hg]
      exact ⟨h0, h1⟩
    · obtain ⟨hcur, hmax⟩ := takeDamage_currentHealth p d hg
      rw [hcur, hmax]
      have hdmg : 0 ≤ (if p.isBlocking = true ∧ p.currentState = PlayerState.BLOCKING then
          Int.fdiv d 10 else d) := by
        split
        · exact Int.fdiv_nonneg hd (by decide)
        · exact hd
      refine ⟨le_max_left 0 _, max_le (le_trans h0 h1) (by omega)⟩
  · constructor
    · exact le_min (le_trans h0 h1) (by omega)
    · exact min_le_left _ _
  · exact levelLoop_health
      { p with experience := p.experience + amount,
               totalExperience := p.totalExperience + amount } hinv h0 h1

/-- Witness for C8: the fresh player, 30 damage, 15 healing, 250 XP. -/
theorem player_health_invariant_witness :
    Player.LevelInv initialPlayer ∧ (0:Int) ≤ 30 ∧ (0:Int) ≤ 15 ∧
    0 ≤ initialPlayer.currentHealth ∧ initialPlayer.currentHealth ≤ initialPlayer.maxHealth ∧
    ((0 ≤ (initialPlayer.takeDamage 30).1.currentHealth ∧
        (initialPlayer.takeDamage 30).1.currentHealth ≤
          (initialPlayer.takeDamage 30).1.maxHealth) ∧
      (0 ≤ (initialPlayer.heal 15).1.currentHealth ∧
        (initialPlayer.heal 15).1.currentHealth ≤ (initialPlayer.heal 15).1.maxHealth) ∧
      (0 ≤ (initialPlayer.gainExperience 250 rfl).currentHealth ∧
        (initialPlayer.gainExperience 250 rfl).currentHealth ≤
          (initialPlayer.gainExperience 250 rfl).maxHealth)) :=
  ⟨rfl, by decide, by decide, by decide, by decide,
    player_health_invariant initialPlayer 30 15 250 rfl (by decide) (by decide)
      (by decide) (by decide)⟩

/-- C2: for both actors and every damage amount, `takeDamage` never
drives current health below 0 (it is floored at 0 by `max`), and an
actor in the DEAD state ignores a further `takeDamage` call completely:
the state is unchanged and no damage or death event is emitted. -/
theorem takeDamage_floor_and_dead_ignored (p : Player) (e : Enemy) (d : Int) (rand : ℚ)
    (hp : 0 ≤ p.currentHealth) (he : 0 ≤ e.currentHealth) :
    0 ≤ (p.takeDamage d).1.currentHealth ∧
    0 ≤ (e.takeDamage d rand).1.currentHealth ∧
    (p.currentState = PlayerState.DEAD → p.takeDamage d = (p, [])) ∧
    (e.currentState = EnemyState.DEAD → e.takeDamage d rand = (e, [])) := by
  refine ⟨?_, ?_, ?_, ?_⟩
  · by_cases hg : p.isInvulnerable = true ∨ p.currentState = PlayerState.DEAD
    · rw [takeDamage_guard p d hg]; exact hp
    · rw [(takeDamage_currentHealth p d hg).1]; exact le_max_left 0 _
  · by_cases hg : e.isInvulnerable = true ∨ e.currentState = EnemyState.DEAD
    · rw [enemy_takeDamage_guard e d rand hg]; exact he
    · rw [(enemy_takeDamage_currentHealth e d rand hg).1]; exact le_max_left 0 _
  · intro h; exact takeDamage_guard p d (Or.inr h)
  · intro h; exact enemy_takeDamage_guard e d rand (Or.inr h)

/-- Witness for C2: a dead player and a dead enemy hit for 25. -/
theorem takeDamage_floor_and_dead_ignored_witness :
    0 ≤ ({ initialPlayer with currentHealth := 0, currentState := PlayerState.DEAD } : Player).currentHealth ∧
    0 ≤ ({ initialEnemy with currentHealth := 0, currentState := EnemyState.DEAD } : Enemy).currentHealth ∧
    (0 ≤ (({ initialPlayer with currentHealth := 0, currentState := PlayerState.DEAD } : Player).takeDamage 25).1.currentHealth ∧
      0 ≤ (({ initialEnemy with currentHealth := 0, currentState := EnemyState.DEAD } : Enemy).takeDamage 25 (1/2)).1.currentHealth ∧
      (({ initialPlayer with currentHealth := 0, currentState := PlayerState.DEAD } : Player).currentState = PlayerState.DEAD →
        ({ initialPlayer with currentHealth := 0, currentState := PlayerState.DEAD } : Player).takeDamage 25 =
          ({ initialPlayer with currentHealth := 0, currentState := PlayerState.DEAD }, [])) ∧
      (({ initialEnemy with currentHealth := 0, currentState := EnemyState.DEAD } : Enemy).currentState = EnemyState.DEAD →
        ({ initialEnemy with currentHealth := 0, currentState := EnemyState.DEAD } : Enemy).takeDamage 25 (1/2) =
          ({ initialEnemy with currentHealth := 0, currentState := EnemyState.DEAD }, []))) :=
  ⟨by decide, by decide,
    takeDamage_floor_and_dead_ignored
      { initialPlayer with currentHealth := 0, currentState := PlayerState.DEAD }
      { initialEnemy with currentHealth := 0, currentState := EnemyState.DEAD }
      25 (1/2) (by decide) (by decide)⟩

/-- C3: `Enemy.takeDamage` rolls its block reduction whenever the
`isBlocking` flag is set, independently of the current state (even when
the enemy is not in the BLOCKING state), against the fixed success
probability 70% (`rand < 7/10`); on a successful roll the applied
damage is `floor(damage * 0.3)`.  The second conjunct shows the health
outcome is unchanged when the current state is replaced by any other
non-DEAD state. -/
theorem enemy_block_roll_state_independent (e : Enemy) (d : Int) (rand : ℚ)
    (s : EnemyState) (hb : e.isBlocking = true) (hi : e.isInvulnerable = false)
    (hsd : e.currentState ≠ EnemyState.DEAD) (hs2 : s ≠ EnemyState.DEAD)
    (hr : rand < 7/10) :
    (e.takeDamage d rand).1.currentHealth
        = max 0 (e.currentHealth - Int.fdiv (d * 3) 10) ∧
    (({ e with currentState := s } : Enemy).takeDamage d rand).1.currentHealth
        = (e.takeDamage d rand).1.currentHealth := by
  have hg : ¬(e.isInvulnerable = true ∨ e.currentState = EnemyState.DEAD) := by
    simp [hi, hsd]
  have hg2 : ¬(({ e with currentState := s } : Enemy).isInvulnerable = true ∨
      ({ e with currentState := s } : Enemy).currentState = EnemyState.DEAD) := by
    simp [hi, hs2]
  have h1 := (enemy_takeDamage_currentHealth e d rand hg).1
  have h2 := (enemy_takeDamage_currentHealth { e with currentState := s } d rand hg2).1
  rw [if_pos ⟨hb, hr⟩] at h1
  rw [if_pos ⟨hb, hr⟩] at h2
  rw [h1, h2]
  exact ⟨rfl, rfl⟩

/-- Witness for C3: a walking enemy with the blocking flag still set,
hit for 10 with roll 1/2; the outcome matches an otherwise identical
enemy in the HURT state. -/
theorem enemy_block_roll_state_independent_witness :
    ({ initialEnemy with isBlocking := true, currentState := EnemyState.WALKING } : Enemy).isBlocking = true ∧
    ({ initialEnemy with isBlocking := true, currentState := EnemyState.WALKING } : Enemy).isInvulnerable = false ∧
    ({ initialEnemy with isBlocking := true, currentState := EnemyState.WALKING } : Enemy).currentState ≠ EnemyState.DEAD ∧
    EnemyState.HURT ≠ EnemyState.DEAD ∧
    (1:ℚ)/2 < 7/10 ∧
    ((({ initialEnemy with isBlocking := true, currentState := EnemyState.WALKING } : Enemy).takeDamage 10 (1/2)).1.currentHealth
        = max 0 (({ initialEnemy with isBlocking := true, currentState := EnemyState.WALKING } : Enemy).currentHealth - Int.fdiv (10 * 3) 10) ∧
      (({ { initialEnemy with isBlocking := true, currentState := EnemyState.WALKING } with currentState := EnemyState.HURT } : Enemy).takeDamage 10 (1/2)).1.currentHealth
        = (({ initialEnemy with isBlocking := true, currentState := EnemyState.WALKING } : Enemy).takeDamage 10 (1/2)).1.currentHealth) :=
  ⟨rfl, rfl, by decide, by decide, by norm_num,
    enemy_block_roll_state_independent
      { initialEnemy with isBlocking := true, currentState := EnemyState.WALKING }
      10 (1/2) EnemyState.HURT rfl rfl (by decide) (by decide) (by norm_num)⟩

/-- C4 (code bug): DEAD is not terminal for the enemy.  The
`ATTACK_DURATION` delayed callback scheduled when the enemy entered
ATTACKING runs `setEnemyState(IDLE)` with no health or state guard, so
when it fires on an enemy that died during the attack, the enemy leaves
the DEAD state; this theorem evaluates that callback at such an enemy.
(The hurt-end callback, by contrast, is guarded by `currentHealth > 0`.) -/
theorem dead_enemy_attack_callback_exits_DEAD :
    (Enemy.attackDurationCallback { initialEnemy with currentHealth := 0, currentState := EnemyState.DEAD, isAttacking := true }).currentState = EnemyState.IDLE ∧
    (Enemy.blockEndCallback { initialEnemy with currentHealth := 0, currentState := EnemyState.DEAD, isBlocking := true }).currentState = EnemyState.IDLE ∧
    (Enemy.hurtEndCallback { initialEnemy with currentHealth := 0, currentState := EnemyState.DEAD } ).currentState = EnemyState.DEAD := by
  decide

/-- C5 counterexample: a blocking player at 5 health hit for 100 takes
`floor(100 * 0.1) = 10 ≥ 5` damage, dies, and leaves the BLOCKING
state, contradicting the claim that the state is unchanged for every
damage amount. -/
theorem blocking_player_lethal_hit_dies :
    (Player.takeDamage { initialPlayer with currentHealth := 5, currentState := PlayerState.BLOCKING, isBlocking := true } 100).1.currentState = PlayerState.DEAD ∧
    PlayerState.DEAD ≠ PlayerState.BLOCKING := by
  decide

/-- C5 (amended): when the player is BLOCKING (flag and state) and not
invulnerable, `takeDamage` applies exactly `floor(damage * 0.1)`; if
the reduced hit is non-lethal the player is not stunned, gains no
invulnerability and keeps exactly the same state (still BLOCKING, no
other field changed); if it is lethal the player dies (state DEAD). -/
theorem blocking_player_takeDamage_amended (p : Player) (d : Int)
    (hs : p.currentState = PlayerState.BLOCKING) (hb : p.isBlocking = true)
    (hi : p.isInvulnerable = false) :
    (p.takeDamage d).1.currentHealth = max 0 (p.currentHealth - Int.fdiv d 10) ∧
    (0 < max 0 (p.currentHealth - Int.fdiv d 10) →
      (p.takeDamage d).1 = { p with currentHealth := max 0 (p.currentHealth - Int.fdiv d 10) }) ∧
    (max 0 (p.currentHealth - Int.fdiv d 10) ≤ 0 →
      (p.takeDamage d).1.currentState = PlayerState.DEAD) := by
  have hdm : (if p.isBlocking = true ∧ p.currentState = PlayerState.BLOCKING then
      Int.fdiv d 10 else d) = Int.fdiv d 10 := if_pos ⟨hb, hs⟩
  have hg : ¬(p.isInvulnerable = true ∨ p.currentState = PlayerState.DEAD) := by
    simp [hi, hs]
  simp only [Player.takeDamage, hdm]
  rw [if_neg hg]
  split
  · rename_i hneg
    exact ⟨die_currentHealth _, fun hpos => absurd hneg (by omega), fun _ => die_currentState _⟩
  · rename_i hneg
    rw [if_neg (show ¬(p.currentState ≠ PlayerState.BLOCKING) by simp [hs])]
    exact ⟨rfl, fun _ => rfl, fun hle => absurd hle hneg⟩

/-- Witness for C5 (amended): a blocking full-health player hit for 30
keeps 97 health and stays BLOCKING. -/
theorem blocking_player_takeDamage_amended_witness :
    ({ initialPlayer with currentState := PlayerState.BLOCKING, isBlocking := true } : Player).currentState = PlayerState.BLOCKING ∧
    ({ initialPlayer with currentState := PlayerState.BLOCKING, isBlocking := true } : Player).isBlocking = true ∧
    ({ initialPlayer with currentState := PlayerState.BLOCKING, isBlocking := true } : Player).isInvulnerable = false ∧
    ((({ initialPlayer with currentState := PlayerState.BLOCKING, isBlocking := true } : Player).takeDamage 30).1.currentHealth
        = max 0 (({ initialPlayer with currentState := PlayerState.BLOCKING, isBlocking := true } : Player).currentHealth - Int.fdiv 30 10) ∧
      (0 < max 0 (({ initialPlayer with currentState := PlayerState.BLOCKING, isBlocking := true } : Player).currentHealth - Int.fdiv 30 10) →
        (({ initialPlayer with currentState := PlayerState.BLOCKING, isBlocking := true } : Player).takeDamage 30).1
          = { ({ initialPlayer with currentState := PlayerState.BLOCKING, isBlocking := true } : Player) with
              currentHealth := max 0 (({ initialPlayer with currentState := PlayerState.BLOCKING, isBlocking := true } : Player).currentHealth - Int.fdiv 30 10) }) ∧
      (max 0 (({ initialPlayer with currentState := PlayerState.BLOCKING, isBlocking := true } : Player).currentHealth - Int.fdiv 30 10) ≤ 0 →
        (({ initialPlayer with currentState := PlayerState.BLOCKING, isBlocking := true } : Player).takeDamage 30).1.currentState = PlayerState.DEAD)) :=
  ⟨rfl, rfl, rfl,
    blocking_player_takeDamage_amended
      { initialPlayer with currentState := PlayerState.BLOCKING, isBlocking := true }
      30 rfl rfl rfl⟩

/-- C6 counterexample: healing a dead player (state DEAD, 0 health) for
50 leaves the state DEAD but raises current health to 50, so `heal`
does not preserve the equivalence between current health 0 and state
DEAD. -/
theorem heal_dead_player_breaks_equivalence :
    (Player.heal { initialPlayer with currentHealth := 0, currentState := PlayerState.DEAD } 50).1.currentState = PlayerState.DEAD ∧
    (Player.heal { initialPlayer with currentHealth := 0, currentState := PlayerState.DEAD } 50).1.currentHealth = 50 ∧
    (50 : Int) ≠ 0 := by
  decide

/-- C6 (amended): `Player.heal` clamps current health to `maxHealth`
and never changes the state, so a DEAD player stays in the DEAD state
(no resurrection in the state machine); but `heal` has no dead-check,
so it can raise a dead player's current health above 0 and does not
preserve the health-0/DEAD equivalence. -/
theorem heal_clamps_and_preserves_state (p : Player) (amount : Int) :
    (p.heal amount).1.currentHealth = min p.maxHealth (p.currentHealth + amount) ∧
    (p.heal amount).1.currentState = p.currentState ∧
    (p.currentState = PlayerState.DEAD →
      (p.heal amount).1.currentState = PlayerState.DEAD) := by
  refine ⟨rfl, rfl, fun h => ?_⟩
  show p.currentState = PlayerState.DEAD
  exact h

/-- Witness for C6 (amended): healing the dead player for 50. -/
theorem heal_clamps_and_preserves_state_witness :
    ({ initialPlayer with currentHealth := 0, currentState := PlayerState.DEAD } : Player).currentState = PlayerState.DEAD ∧
    (Player.heal { initialPlayer with currentHealth := 0, currentState := PlayerState.DEAD } 50).1.currentState = PlayerState.DEAD :=
  ⟨rfl,
    (heal_clamps_and_preserves_state
      { initialPlayer with currentHealth := 0, currentState := PlayerState.DEAD } 50).2.2 rfl⟩

/-- C7: a spawn point that is triggered stays triggered and untouched
across any sequence of update ticks (any player positions, any enemy
deaths) until `reset`; every enemy appended by `checkSpawnTriggers`
comes from a point that was untriggered (and in range) at that moment,
and a spawn only happens while the live count is below `maxEnemies`, so
the live-enemy list never exceeds `maxEnemies`; `reset` clears the
enemies and every `triggered` flag. -/
theorem spawner_latch_and_capacity (sp : EnemySpawner)
    (steps : List (ℚ × ((ℚ × ℚ) → Bool))) (i : Nat) (px : ℚ)
    (hcap : sp.enemies.length ≤ sp.maxEnemies)
    (htrig : ∀ q, sp.spawnPoints.get? i = some q → q.triggered = true) :
    (runSpawner sp steps).enemies.length ≤ sp.maxEnemies ∧
    (runSpawner sp steps).spawnPoints.get? i = sp.spawnPoints.get? i ∧
    (∃ ns, (sp.checkSpawnTriggers px).enemies = sp.enemies ++ ns ∧
      ∀ q ∈ ns, ∃ ptp, ptp ∈ sp.spawnPoints ∧ ptp.triggered = false ∧
        q = (ptp.x, ptp.y) ∧ |px - ptp.x| ≤ ptp.triggerDistance) ∧
    (sp.reset).enemies = [] ∧
    (∀ ptp ∈ (sp.reset).spawnPoints, ptp.triggered = false) := by
  refine ⟨(runSpawner_latch steps sp i hcap htrig).1,
    (runSpawner_latch steps sp i hcap htrig).2, ?_, rfl, ?_⟩
  · exact checkSpawnTriggersAux_spawn_provenance px sp.maxEnemies sp.spawnPoints sp.enemies
  · intro q hq
    simp only [EnemySpawner.reset] at hq
    obtain ⟨q0, hq0, rfl⟩ := List.mem_map.mp hq
    rfl

/-- Witness for C7: one already-triggered spawn point, one live enemy,
cap 3, one update tick. -/
theorem spawner_latch_and_capacity_witness :
    ({ enemies := [((1:ℚ), 2)],
       spawnPoints := [{ x := 0, y := 0, triggered := true, triggerDistance := 200 }],
       maxEnemies := 3 } : EnemySpawner).enemies.length ≤
      ({ enemies := [((1:ℚ), 2)],
         spawnPoints := [{ x := 0, y := 0, triggered := true, triggerDistance := 200 }],
         maxEnemies := 3 } : EnemySpawner).maxEnemies ∧
    (runSpawner
        { enemies := [((1:ℚ), 2)],
          spawnPoints := [{ x := 0, y := 0, triggered := true, triggerDistance := 200 }],
          maxEnemies := 3 } [((0:ℚ), fun _ => true)]).enemies.length ≤
      ({ enemies := [((1:ℚ), 2)],
         spawnPoints := [{ x := 0, y := 0, triggered := true, triggerDistance := 200 }],
         maxEnemies := 3 } : EnemySpawner).maxEnemies :=
  ⟨by decide,
    (spawner_latch_and_capacity
      { enemies := [((1:ℚ), 2)],
        spawnPoints := [{ x := 0, y := 0, triggered := true, triggerDistance := 200 }],
        maxEnemies := 3 }
      [((0:ℚ), fun _ => true)] 0 0 (by decide)
      (fun q hq => (Option.some.inj hq) ▸ rfl)).1⟩

/-- C9: when the targeted player's velocity is zero, the predictive aim
point of `RangedEnemy.fireProjectile` equals the player's current
position (the lead term contributes zero), and the spawned projectile's
velocity is a positive scalar multiple of the vector from the enemy to
the player's current position. -/
theorem ranged_stationary_player_aim (ex ey px py distT aimDist speed : ℚ)
    (hdist : 0 < aimDist) (hspeed : 0 < speed)
    (hsq : aimDist * aimDist = (px - ex) * (px - ex) + (py - ey) * (py - ey)) :
    predictAim px py 0 0 distT speed = (px, py) ∧
    fireProjectile ex ey px py aimDist speed =
      some { velX := (px - ex) / aimDist * speed, velY := (py - ey) / aimDist * speed,
             startX := ex + (px - ex) / aimDist * PROJECTILE_OFFSET,
             startY := ey + (py - ey) / aimDist * PROJECTILE_OFFSET } ∧
    (px - ex) / aimDist * speed = (speed / aimDist) * (px - ex) ∧
    (py - ey) / aimDist * speed = (speed / aimDist) * (py - ey) ∧
    0 < speed / aimDist := by
  refine ⟨?_, ?_, by ring, by ring, div_pos hspeed hdist⟩
  · simp [predictAim]
  · simp [fireProjectile, hdist]

/-- Witness for C9: enemy at the origin, player at (3, 4), distance 5,
projectile speed 10. -/
theorem ranged_stationary_player_aim_witness :
    (0:ℚ) < 5 ∧ (0:ℚ) < 10 ∧
    ((5:ℚ) * 5 = (3 - 0) * (3 - 0) + (4 - 0) * (4 - 0)) ∧
    (predictAim 3 4 0 0 5 10 = ((3:ℚ), (4:ℚ)) ∧
      fireProjectile 0 0 3 4 5 10 =
        some { velX := ((3:ℚ) - 0) / 5 * 10, velY := ((4:ℚ) - 0) / 5 * 10,
               startX := 0 + ((3:ℚ) - 0) / 5 * PROJECTILE_OFFSET,
               startY := 0 + ((4:ℚ) - 0) / 5 * PROJECTILE_OFFSET } ∧
      ((3:ℚ) - 0) / 5 * 10 = ((10:ℚ) / 5) * (3 - 0) ∧
      ((4:ℚ) - 0) / 5 * 10 = ((10:ℚ) / 5) * (4 - 0) ∧
      (0:ℚ) < 10 / 5) :=
  ⟨by norm_num, by norm_num, by norm_num,
    ranged_stationary_player_aim 0 0 3 4 5 5 10 (by norm_num) (by norm_num) (by norm_num)⟩
